import Mathlib

/-!
Verification development for the stem-splitter job pipeline
(`src/backend/main.py` and `src/worker/worker.py`).

The embedding models:
* the job record and the partial-merge update the worker performs
  (`update_job_status`, Redis `HSET` with only the supplied fields);
* the Redis value typing relevant to the backend/worker interaction:
  the backend `create_job` writes the record with `SET` (a string value),
  while the worker `get_job_data` reads it with `HGETALL` (a hash
  operation), which fails with a `WRONGTYPE` error on a string key —
  that error is swallowed by `get_job_data`'s `except` and surfaces
  as `None`;
* the worker's event behaviour for one processing attempt
  (`process_audio`, `process_audio_with_timeout`), for the retry /
  dead-letter policy (`retry_failed_job`), for the main-loop handling
  of one dequeued id, and for the full retry loop, as executable
  functions producing the list of store/queue/filesystem events the
  code emits in the given scenario.

The external separation engine (`demucs`) is opaque to the worker; it is
modelled by an `EngineResult` parameter (success with a list of stem
names, or failure with a message), and the per-job timeout by a flag
saying whether the attempt exceeded the deadline.
-/

namespace StemSplitter

/-- Job status values used by the code (`queued`, `processing`,
`completed`, `failed`); dead-lettering is membership in the
`job_dead_letter` list, not a status value. -/
inductive Status where
  | queued
  | processing
  | completed
  | failed
deriving DecidableEq, Repr

/-- A job record as the worker reads and writes it: the fields of the
`job:{id}` hash.  `filename` is optional because a dequeued record may
lack it (`job_data.get("filename")` in `main`); `stems` is optional
because the field is absent until a write supplies it. -/
structure Job where
  status : Status
  filename : Option String
  progress : ℚ
  message : String
  stems : Option (List String)
  retry_count : ℕ
deriving DecidableEq, Repr

/-- One call to the worker's `update_job_status(job_id, status,
progress, message, stems)`: `status` is always written; each other
field is written only when the argument is not `None`. -/
structure JobUpdate where
  status : Status
  progress : Option ℚ
  message : Option String
  stems : Option (List String)
deriving DecidableEq, Repr

/-- Applying one `update_job_status` call to a job record: an `HSET`
with exactly the supplied fields, leaving the others unchanged. -/
def update_job_status (j : Job) (u : JobUpdate) : Job :=
  { j with
    status := u.status
    progress := u.progress.getD j.progress
    message := u.message.getD j.message
    stems := match u.stems with
      | some s => some s
      | none => j.stems }

/-! ## The Redis store as the backend and the worker see it

Redis keys are typed: a key written with `SET` holds a string, a key
written with `HSET` holds a hash.  Reading a string key with `HGETALL`
(or writing it with `HSET`) raises a `WRONGTYPE` error.  The backend's
`create_job` serialises the whole record to JSON and stores it with
`SET`; the worker's `get_job_data` reads the key with `HGETALL` and
catches every exception, returning `None`. -/

/-- A Redis value: either a string (written by `SET`) or a hash
(written by `HSET`).  We let the hash carry the decoded job record
directly, since the worker reads and writes it field-wise. -/
inductive RVal where
  | str (s : String)
  | hash (j : Job)
deriving DecidableEq, Repr

/-- The shared Redis state: the key/value space plus the two lists the
code uses, `job_queue` (pending work, `LPUSH`/`BRPOP`) and
`job_dead_letter`. -/
structure Redis where
  kv : List (String × RVal)
  job_queue : List String
  job_dead_letter : List String
deriving Repr

/-- The key under which a job record is stored: `job:{job_id}`. -/
def jobKey (jobId : String) : String := "job:" ++ jobId

/-- `SET`/`HSET`-style key update: replace the value at the key, or
append the binding when the key is absent. -/
def kvSet : List (String × RVal) → String → RVal → List (String × RVal)
  | [], k, v => [(k, v)]
  | (k0, v0) :: rest, k, v =>
      if k0 = k then (k, v) :: rest else (k0, v0) :: kvSet rest k v

/-- The JSON string `create_job` builds with `json.dumps(job_data)`.
Its exact shape is irrelevant to the claims: what matters is that it is
stored as a Redis *string*. -/
def jobJson (jobId filename : String) : String :=
  "\x7b\"job_id\": \"" ++ jobId ++ "\", \"status\": \"queued\", \"filename\": \""
    ++ filename ++ "\", \"progress\": 0, \"message\": \"Job queued for processing\"\x7d"

/-- The backend's `create_job(job_id, filename)`
(`src/backend/main.py:52`): `SET job:{id} <json>` followed by
`LPUSH job_queue id`. -/
def create_job (r : Redis) (jobId filename : String) : Redis :=
  { r with
    kv := kvSet r.kv (jobKey jobId) (RVal.str (jobJson jobId filename))
    job_queue := jobId :: r.job_queue }

/-- The worker's `get_job_data(job_id)` (`src/worker/worker.py:98`):
`HGETALL job:{id}`.  On a missing key `HGETALL` returns an empty dict,
so the function returns `None`; on a *string* key it raises
`WRONGTYPE`, which the surrounding `except Exception` turns into
`None`; only a hash key yields the record. -/
def get_job_data (r : Redis) (jobId : String) : Option Job :=
  match List.lookup (jobKey jobId) r.kv with
  | none => none
  | some (RVal.str _) => none
  | some (RVal.hash j) => some j

/-- Looking up the key just set returns the value just set. -/
theorem lookup_kvSet_self (l : List (String × RVal)) (k : String) (v : RVal) :
    List.lookup k (kvSet l k v) = some v := by
  induction l with
  | nil => simp [kvSet, List.lookup]
  | cons hd tl ih =>
      obtain ⟨k0, v0⟩ := hd
      by_cases h : k0 = k
      · simp [kvSet, h, List.lookup]
      · have hk : (k == k0) = false := by
          simp only [beq_eq_false_iff_ne, ne_eq]
          exact fun h2 => absurd h2.symm h
        simp [kvSet, h, List.lookup, ih, hk]

/-- C1: refuted on the code.  For every starting store and every job id
and filename, a `create_job` by the backend followed by the worker's
`get_job_data` on the same id yields `none`, never a record with the
filename: the backend stores the record as a JSON *string* (`SET`),
while the worker reads the key as a *hash* (`HGETALL`), whose
`WRONGTYPE` error `get_job_data` swallows into `None` — so every
dequeued job is dropped as missing job data. -/
theorem c1_created_job_is_unreadable_by_worker
    (r : Redis) (jobId filename : String) :
    get_job_data (create_job r jobId filename) jobId = none := by
  unfold get_job_data create_job
  simp [lookup_kvSet_self]

/-! ## Worker events

The worker side is modelled as executable generators producing the list
of store / queue / filesystem events the code emits in a given
scenario.  The job record here is the *hash* form the worker itself
reads and writes (the backend/worker representation mismatch is the
subject of C1 above). -/

/-- One observable effect of the worker on the shared state, for a
fixed job id: a `update_job_status` call, the retry-count increment
(`HSET retry_count`), a push of the id onto `job_queue` or
`job_dead_letter`, and the filesystem effects on the job's input file
and output directory. -/
inductive Ev where
  | write (u : JobUpdate)
  | incRetry
  | enqueue
  | deadLetter
  | mkOutputDir
  | saveStem (name : String)
  | deleteInput
  | removeOutputDir
deriving DecidableEq, Repr

/-- Abbreviation for an `update_job_status` event. -/
def wr (st : Status) (p : Option ℚ) (m : Option String)
    (s : Option (List String)) : Ev :=
  Ev.write ⟨st, p, m, s⟩

/-- Outcome of the opaque separation engine (`demucs` model load,
audio load, `apply_model`): success with the model's list of stem
names (`model.sources`), or an exception with a message. -/
inductive EngineResult where
  | success (stemNames : List String)
  | failure (msg : String)
deriving DecidableEq, Repr

/-- `l ≠ []` for the stem-name list of a successful engine run (the
demucs models have a fixed non-empty source list, e.g.
`['drums', 'bass', 'other', 'vocals']`). -/
def engineStemsNonempty : EngineResult → Prop
  | EngineResult.success l => l ≠ []
  | EngineResult.failure _ => True

/-! The message strings the worker writes, verbatim from the code. -/

def startingMsg : String := "Starting stem separation..."

def loadingModelMsg (modelName : String) : String :=
  "Loading " ++ modelName ++ " model..."

def loadingAudioMsg : String := "Loading audio file..."

def separatingMsg : String := "Separating audio tracks..."

def savingMsg : String := "Saving separated stems..."

def savedStemMsg (name : String) : String := "Saved " ++ name ++ ".wav"

def completedMsg : String := "Stem separation completed!"

/-- `str(FileNotFoundError(...))` raised at `worker.py:205`. -/
def inputNotFoundMsg (jobId : String) : String :=
  "Input file not found for job " ++ jobId

/-- The message of the catch-all failure write at `worker.py:305`. -/
def processErrorMsg (jobId m : String) : String :=
  "Error processing job " ++ jobId ++ ": " ++ m

/-- The timeout message written at `worker.py:163`. -/
def timeoutMsg (timeout : ℕ) : String :=
  "Job timeout after " ++ toString timeout ++ " seconds"

/-- The message `handle_shutdown` writes at `worker.py:125`. -/
def shutdownMsg : String := "Worker shutdown during processing"

/-- The message written for a record without filename, `worker.py:375`. -/
def invalidDataMsg : String := "Invalid job data: missing filename"

/-- The dead-letter message written at `worker.py:330`. -/
def maxRetriesMsg (maxRetries : ℕ) : String :=
  "Max retries (" ++ toString maxRetries ++ ") exceeded"

/-- The status write `handle_shutdown` performs for the in-flight job:
status `failed`, a shutdown message, and — notably — *no* progress
argument, so the stored progress is left unchanged. -/
def handle_shutdown_write : JobUpdate :=
  ⟨Status.failed, none, some shutdownMsg, none⟩

/-- Events of `process_audio` from locating the input file up to (and
including) the `apply_model` call: the `processing` progress writes at
10/20/30/40 and the output-directory creation (`worker.py:210-273`). -/
def preEvents (modelName : String) : List Ev :=
  [wr Status.processing (some 10) (some startingMsg) none,
   Ev.mkOutputDir,
   wr Status.processing (some 20) (some (loadingModelMsg modelName)) none,
   wr Status.processing (some 30) (some loadingAudioMsg) none,
   wr Status.processing (some 40) (some separatingMsg) none]

/-- The per-stem save loop (`worker.py:287-295`): for the `i`-th of `n`
stems, save the file and write progress `70 + (i+1)/n * 20`. -/
def saveEvents (n : ℕ) : List String → ℕ → List Ev
  | [], _ => []
  | name :: rest, i =>
      Ev.saveStem name
        :: wr Status.processing (some (70 + ((i : ℚ) + 1) / (n : ℚ) * 20))
             (some (savedStemMsg name)) none
        :: saveEvents n rest (i + 1)

/-- Events of `process_audio` after `apply_model` returns or raises
(`worker.py:264-308`): on an engine error the `cleanup_on_error`
context removes the output directory and the input file and the outer
handler writes `failed`; on success, unless a shutdown was requested
before the save phase (early `return` at `worker.py:276-278`), the
stems are saved, the input file is unlinked, and the `completed` write
carries the stem list. -/
def threadContinuation (jobId : String) (engine : EngineResult)
    (shutdownBeforeSave : Bool) : List Ev :=
  match engine with
  | EngineResult.failure msg =>
      [Ev.removeOutputDir, Ev.deleteInput,
       wr Status.failed (some 0) (some (processErrorMsg jobId msg)) none]
  | EngineResult.success stemNames =>
      if shutdownBeforeSave then []
      else
        wr Status.processing (some 70) (some savingMsg) none
          :: (saveEvents stemNames.length stemNames 0
              ++ [Ev.deleteInput,
                  wr Status.completed (some 100) (some completedMsg)
                    (some stemNames)])

/-- One full `process_audio(job_id, filename)` attempt
(`worker.py:172-308`) that runs to its own end (no deadline cut):
the event list it emits and `none` for a normal return or `some msg`
for a raised exception (the thread wrapper then reports `msg` as the
error).  `shutdownAtStart` / `shutdownBeforeSave` are the two points
where the code consults the shutdown flag and returns early.
An engine failure is placed at the separation step; failures at model
or audio load behave identically for the stated claims (same cleanup
and the same catch-all `failed` write). -/
def processAudioEvents (jobId modelName : String) (inputPresent : Bool)
    (engine : EngineResult) (shutdownAtStart shutdownBeforeSave : Bool) :
    List Ev × Option String :=
  if shutdownAtStart then ([], none)
  else if inputPresent then
    (preEvents modelName ++ threadContinuation jobId engine shutdownBeforeSave,
     match engine with
     | EngineResult.failure msg => some msg
     | EngineResult.success _ => none)
  else
    ([wr Status.failed (some 0)
        (some (processErrorMsg jobId (inputNotFoundMsg jobId))) none],
     some (inputNotFoundMsg jobId))

/-- The timeout scenario of `process_audio_with_timeout`
(`worker.py:143-169`) together with the main loop's `TimeoutError`
handler (`worker.py:393-396`), in the canonical reachable
interleaving: the deadline expires during the separation step, the
main thread writes `failed` with the timeout message (once in the
wrapper, once in the loop's handler) and — because the daemon
processing thread is never cancelled — the thread afterwards appends
the rest of its events, including the final `completed` write when the
engine call eventually succeeds. -/
def timeoutScenarioEvents (jobId modelName : String) (timeout : ℕ)
    (engine : EngineResult) (shutdownBeforeSave : Bool) : List Ev :=
  preEvents modelName
    ++ [wr Status.failed (some 0) (some (timeoutMsg timeout)) none,
        wr Status.failed (some 0) (some (timeoutMsg timeout)) none]
    ++ threadContinuation jobId engine shutdownBeforeSave

/-- `retry_failed_job(job_id)` (`worker.py:311-333`) for a job whose
stored `retry_count` is `rc`: below `MAX_RETRIES` it increments the
count and pushes the id back on `job_queue` (note: it does *not* set
the status back to `queued`); otherwise it pushes the id on
`job_dead_letter` and writes `failed` with the max-retries message. -/
def retry_failed_job (rc maxRetries : ℕ) : List Ev :=
  if rc < maxRetries then [Ev.incRetry, Ev.enqueue]
  else
    [Ev.deadLetter,
     wr Status.failed (some 0) (some (maxRetriesMsg maxRetries)) none]

/-- The main loop's handling of one dequeued job id
(`worker.py:360-402`): a missing record is skipped with no status
write; a record without filename gets a single `failed` write; a
timed-out attempt gets the timeout events and *no* retry; any other
raising attempt is followed by `retry_failed_job` on the record's
current retry count. -/
def mainIterEvents (jobId modelName : String) (record : Option Job)
    (inputPresent : Bool) (engine : EngineResult) (timesOut : Bool)
    (timeout maxRetries : ℕ) (shutdownAtStart shutdownBeforeSave : Bool) :
    List Ev :=
  match record with
  | none => []
  | some j =>
      match j.filename with
      | none => [wr Status.failed (some 0) (some invalidDataMsg) none]
      | some _ =>
          if timesOut then
            timeoutScenarioEvents jobId modelName timeout engine
              shutdownBeforeSave
          else
            match processAudioEvents jobId modelName inputPresent engine
                shutdownAtStart shutdownBeforeSave with
            | (evs, none) => evs
            | (evs, some _) => evs ++ retry_failed_job j.retry_count maxRetries

/-! ## The shared state affected by the events -/

/-- The slice of shared state relevant to one job id: its record, the
presence of its input artifact under `UPLOAD_DIR`, the number of
occurrences of the id in `job_queue`, whether the id is on
`job_dead_letter`, and whether `OUTPUT_DIR/{id}` exists. -/
structure SysState where
  job : Job
  inputPresent : Bool
  queuedLen : ℕ
  deadLettered : Bool
  outputDirExists : Bool
deriving DecidableEq, Repr

/-- Effect of one event on the state. -/
def applyEv (s : SysState) : Ev → SysState
  | Ev.write u => { s with job := update_job_status s.job u }
  | Ev.incRetry =>
      { s with job := { s.job with retry_count := s.job.retry_count + 1 } }
  | Ev.enqueue => { s with queuedLen := s.queuedLen + 1 }
  | Ev.deadLetter => { s with deadLettered := true }
  | Ev.mkOutputDir => { s with outputDirExists := true }
  | Ev.saveStem _ => s
  | Ev.deleteInput => { s with inputPresent := false }
  | Ev.removeOutputDir => { s with outputDirExists := false }

/-- Folding a list of events over the state. -/
def applyEvs (s : SysState) (evs : List Ev) : SysState :=
  evs.foldl applyEv s

/-- The job record as the worker would read it right after creation:
status `queued`, progress 0, the creation message, no stems.
`create_job` writes no `retry_count` field and the worker defaults a
missing `retry_count` to 0. -/
def createdJob (filename : String) : Job :=
  { status := Status.queued
    filename := some filename
    progress := 0
    message := "Job queued for processing"
    stems := none
    retry_count := 0 }

/-- Shared state right after submission: fresh record, input artifact
stored under `{id}_{filename}`, the id enqueued once. -/
def initialState (filename : String) : SysState :=
  { job := createdJob filename
    inputPresent := true
    queuedLen := 1
    deadLettered := false
    outputDirExists := false }

/-- The worker loop run against an engine that fails on every
invocation with a retryable (non-timeout) error: each iteration
`BRPOP`s the id (when queued), handles it via `mainIterEvents`, and
applies the resulting events to the shared state.  The recursion is
fuelled; `maxRetries + 2` iterations suffice to reach dead-letter. -/
def runAlwaysFail (jobId modelName errMsg : String)
    (timeout maxRetries : ℕ) : ℕ → SysState → List Ev × SysState
  | 0, s => ([], s)
  | fuel + 1, s =>
      if s.queuedLen = 0 then ([], s)
      else
        let s1 : SysState := { s with queuedLen := s.queuedLen - 1 }
        let evs := mainIterEvents jobId modelName (some s1.job)
          s1.inputPresent (EngineResult.failure errMsg) false timeout
          maxRetries false false
        let s2 := applyEvs s1 evs
        let rest := runAlwaysFail jobId modelName errMsg timeout maxRetries
          fuel s2
        (evs ++ rest.1, rest.2)

/-! ## Measures on event lists -/

/-- Is this event one of the per-attempt failure writes (the catch-all
`failed` write of `process_audio`, message
`Error processing job {id}: ...`)?  The dead-letter write
(`Max retries ... exceeded`) and the timeout write are not attempt
failures in this sense. -/
def isAttemptFailure : Ev → Bool
  | Ev.write u =>
      u.status == Status.failed &&
        (match u.message with
         | some m => List.isPrefixOf "Error processing job ".data m.data
         | none => false)
  | _ => false

/-- How many per-attempt `failed` writes an event list contains. -/
def attemptFailureCount (evs : List Ev) : ℕ :=
  evs.countP isAttemptFailure

/-- Is this event the attempt-start write (`processing`, progress 10,
the starting message) — i.e. a transition of the job *into*
`processing`? -/
def isEnterProcessing : Ev → Bool
  | Ev.write u => u.status == Status.processing && u.progress == some 10
  | _ => false

/-- How many times an event list enters `processing`. -/
def enterProcessingCount (evs : List Ev) : ℕ :=
  evs.countP isEnterProcessing

/-- The sequence of status values written by an event list. -/
def statusHistory (evs : List Ev) : List Status :=
  evs.filterMap fun e =>
    match e with
    | Ev.write u => some u.status
    | _ => none

/-- Does the status sequence contain a `completed` *after* a `failed`?
(The spec's transition graph forbids any path from `failed` to
`completed` that does not pass through `queued` and `processing`, and
in particular the code never writes `queued`.) -/
def failedBeforeCompleted (l : List Status) : Bool :=
  ((l.dropWhile fun s => !(s == Status.failed)).drop 1).contains
    Status.completed

/-- Outcome specification for a full `runAlwaysFail` run: the counts of
attempt failures and of entries into `processing`, and the final shared
state (dead-lettered, final `retry_count`, final status, empty queue). -/
def runOutcomeSpec (maxR failures entered : ℕ) (out : List Ev × SysState) : Prop :=
  attemptFailureCount out.1 = failures ∧
  enterProcessingCount out.1 = entered ∧
  out.2.deadLettered = true ∧
  out.2.job.retry_count = maxR ∧
  out.2.job.status = Status.failed ∧
  out.2.queuedLen = 0

/-- Does the record hold a non-empty `stems` field? -/
def stemsNonempty (j : Job) : Bool :=
  match j.stems with
  | some (_ :: _) => true
  | _ => false

/-- An event that can neither make a job look completed nor give it
stems: any non-write event, or a status write that is not `completed`
and supplies no `stems` field.  Every write the worker performs other
than the final completion write is of this kind. -/
def benignEv : Ev → Bool
  | Ev.write u => !(u.status == Status.completed) && (u.stems == none)
  | _ => true

/-- Reachable interleaving in which the termination signal arrives
while the processing thread is in the save phase — past the *last*
shutdown check at `worker.py:276`: `handle_shutdown` writes the
interruption `failed` for the in-flight job, but the thread is not
cancelled, finishes saving, and ends with the unconditional `completed`
write at `worker.py:301`. -/
def shutdownDuringSaveEvents (jobId modelName : String)
    (stemNames : List String) : List Ev :=
  preEvents modelName
    ++ [wr Status.processing (some 70) (some savingMsg) none,
        Ev.write handle_shutdown_write]
    ++ saveEvents stemNames.length stemNames 0
    ++ [Ev.deleteInput,
        wr Status.completed (some 100) (some completedMsg) (some stemNames)]

/-- Reachable interleaving in which the termination signal arrives
after the `completed` write of a successful attempt but before the main
loop clears `current_job_id` (`worker.py:402`): `handle_shutdown` still
sees the job as in flight and writes the interruption `failed` over the
completed record — without clearing its `stems` field. -/
def shutdownAfterCompleteEvents (jobId modelName : String)
    (stemNames : List String) : List Ev :=
  (processAudioEvents jobId modelName true (EngineResult.success stemNames)
      false false).1
    ++ [Ev.write handle_shutdown_write]

/-! ## Classification lemmas for the event predicates -/


theorem isAttemptFailure_processError (jobId m : String) (p : Option ℚ) :
    isAttemptFailure (Ev.write ⟨Status.failed, p, some (processErrorMsg jobId m), none⟩) = true := by
  simp [isAttemptFailure, processErrorMsg, String.data_append, List.append_assoc]

theorem isAttemptFailure_maxRetries (maxRetries : ℕ) (p : Option ℚ) :
    isAttemptFailure (Ev.write ⟨Status.failed, p, some (maxRetriesMsg maxRetries), none⟩) = false := by
  simp only [isAttemptFailure, maxRetriesMsg, String.data_append]
  rfl

theorem isAttemptFailure_procW (m : Option String) (st : Option (List String)) (p : Option ℚ) :
    isAttemptFailure (Ev.write ⟨Status.processing, p, m, st⟩) = false := rfl

theorem isEnterProcessing_failedW (m : Option String) (p : Option ℚ) (st : Option (List String)) :
    isEnterProcessing (Ev.write ⟨Status.failed, p, m, st⟩) = false := rfl

theorem isAttemptFailure_deadLetter : isAttemptFailure Ev.deadLetter = false := rfl

theorem isAttemptFailure_incRetry : isAttemptFailure Ev.incRetry = false := rfl

theorem isAttemptFailure_enqueue : isAttemptFailure Ev.enqueue = false := rfl

theorem isEnterProcessing_deadLetter : isEnterProcessing Ev.deadLetter = false := rfl

theorem isEnterProcessing_incRetry : isEnterProcessing Ev.incRetry = false := rfl

theorem isEnterProcessing_enqueue : isEnterProcessing Ev.enqueue = false := rfl

theorem runAlwaysFail_stop (jobId model errMsg : String) (t maxR fuel : ℕ)
    (s : SysState) (h : s.queuedLen = 0) :
    runAlwaysFail jobId model errMsg t maxR fuel s = ([], s) := by
  cases fuel with
  | zero => rfl
  | succ fuel => simp [runAlwaysFail, h]

theorem runAlwaysFail_step (jobId model errMsg : String) (t maxR fuel : ℕ)
    (s : SysState) (h : s.queuedLen = 1) :
    runAlwaysFail jobId model errMsg t maxR (fuel + 1) s
    = (mainIterEvents jobId model (some s.job) s.inputPresent
          (EngineResult.failure errMsg) false t maxR false false
        ++ (runAlwaysFail jobId model errMsg t maxR fuel
              (applyEvs { s with queuedLen := 0 }
                (mainIterEvents jobId model (some s.job) s.inputPresent
                  (EngineResult.failure errMsg) false t maxR false false))).1,
       (runAlwaysFail jobId model errMsg t maxR fuel
          (applyEvs { s with queuedLen := 0 }
            (mainIterEvents jobId model (some s.job) s.inputPresent
              (EngineResult.failure errMsg) false t maxR false false))).2) := by
  simp [runAlwaysFail, h]

theorem mainIter_noInput (jobId model errMsg : String) (j : Job) (fn : String)
    (hf : j.filename = some fn) (t maxR : ℕ) :
    mainIterEvents jobId model (some j) false (EngineResult.failure errMsg)
      false t maxR false false
    = Ev.write ⟨Status.failed, some 0,
        some (processErrorMsg jobId (inputNotFoundMsg jobId)), none⟩
      :: retry_failed_job j.retry_count maxR := by
  simp [mainIterEvents, hf, processAudioEvents, wr]

theorem runAlwaysFail_missing_spec (jobId model errMsg : String)
    (t maxR : ℕ) (fn : String) :
    ∀ (k r : ℕ) (s : SysState), r + k = maxR → s.queuedLen = 1 →
      s.inputPresent = false → s.job.retry_count = r →
      s.job.filename = some fn →
      runOutcomeSpec maxR (k + 1) 0
        (runAlwaysFail jobId model errMsg t maxR (k + 2) s) := by
  intro k
  induction k with
  | zero =>
      intro r s hrk h1 h2 h3 h4
      have hr : r = maxR := by omega
      subst hr
      rw [show (0 + 2 : ℕ) = 1 + 1 from rfl,
        runAlwaysFail_step jobId model errMsg t r 1 s h1,
        h2, mainIter_noInput jobId model errMsg s.job fn h4, h3]
      rw [retry_failed_job, if_neg (lt_irrefl _)]
      rw [runAlwaysFail_stop jobId model errMsg t r 1 _
        (by simp [applyEvs, applyEv, wr, update_job_status])]
      simp [runOutcomeSpec, attemptFailureCount, enterProcessingCount,
        List.countP_cons, List.countP_nil, wr,
        isAttemptFailure_processError, isAttemptFailure_maxRetries,
        isEnterProcessing_failedW, isAttemptFailure_deadLetter,
        isEnterProcessing_deadLetter, applyEvs, applyEv, update_job_status, h3]
  | succ k ih =>
      intro r s hrk h1 h2 h3 h4
      have hlt : r < maxR := by omega
      rw [show (k + 1 + 2 : ℕ) = (k + 2) + 1 from rfl,
        runAlwaysFail_step jobId model errMsg t maxR (k + 2) s h1,
        h2, mainIter_noInput jobId model errMsg s.job fn h4, h3]
      rw [retry_failed_job, if_pos hlt]
      have hrec := ih (r + 1)
        (applyEvs
          { job := s.job, inputPresent := false, queuedLen := 0,
            deadLettered := s.deadLettered,
            outputDirExists := s.outputDirExists }
          (Ev.write ⟨Status.failed, some 0,
            some (processErrorMsg jobId (inputNotFoundMsg jobId)), none⟩
            :: [Ev.incRetry, Ev.enqueue]))
        (by omega)
        (by simp [applyEvs, applyEv, update_job_status])
        (by simp [applyEvs, applyEv, update_job_status])
        (by simp [applyEvs, applyEv, update_job_status, h3])
        (by simp [applyEvs, applyEv, update_job_status, h4])
      obtain ⟨ha, hb, hc, hd, he, hf2⟩ := hrec
      refine ⟨?_, ?_, ?_, ?_, ?_, ?_⟩
      · simpa [attemptFailureCount, List.countP_cons, List.countP_append,
          isAttemptFailure_processError, isAttemptFailure_incRetry,
          isAttemptFailure_enqueue] using ha
      · simpa [enterProcessingCount, List.countP_cons, List.countP_append,
          isEnterProcessing_failedW, isEnterProcessing_incRetry,
          isEnterProcessing_enqueue] using hb
      · exact hc
      · exact hd
      · exact he
      · exact hf2

theorem isAttemptFailure_mkOutputDir : isAttemptFailure Ev.mkOutputDir = false := rfl
theorem isAttemptFailure_saveStem (n : String) : isAttemptFailure (Ev.saveStem n) = false := rfl
theorem isAttemptFailure_deleteInput : isAttemptFailure Ev.deleteInput = false := rfl
theorem isAttemptFailure_removeOutputDir : isAttemptFailure Ev.removeOutputDir = false := rfl
theorem isAttemptFailure_completedW (m : Option String) (p : Option ℚ) (st : Option (List String)) :
    isAttemptFailure (Ev.write ⟨Status.completed, p, m, st⟩) = false := rfl
theorem isEnterProcessing_mkOutputDir : isEnterProcessing Ev.mkOutputDir = false := rfl
theorem isEnterProcessing_saveStem (n : String) : isEnterProcessing (Ev.saveStem n) = false := rfl
theorem isEnterProcessing_deleteInput : isEnterProcessing Ev.deleteInput = false := rfl
theorem isEnterProcessing_removeOutputDir : isEnterProcessing Ev.removeOutputDir = false := rfl
theorem isEnterProcessing_completedW (m : Option String) (p : Option ℚ) (st : Option (List String)) :
    isEnterProcessing (Ev.write ⟨Status.completed, p, m, st⟩) = false := rfl
theorem isEnterProcessing_p10 (m : Option String) (st : Option (List String)) :
    isEnterProcessing (Ev.write ⟨Status.processing, some 10, m, st⟩) = true := rfl
theorem isEnterProcessing_p20 (m : Option String) (st : Option (List String)) :
    isEnterProcessing (Ev.write ⟨Status.processing, some 20, m, st⟩) = false := rfl
theorem isEnterProcessing_p30 (m : Option String) (st : Option (List String)) :
    isEnterProcessing (Ev.write ⟨Status.processing, some 30, m, st⟩) = false := rfl
theorem isEnterProcessing_p40 (m : Option String) (st : Option (List String)) :
    isEnterProcessing (Ev.write ⟨Status.processing, some 40, m, st⟩) = false := rfl

theorem countP_attempt_preEvents (model : String) :
    List.countP isAttemptFailure (preEvents model) = 0 := rfl

theorem countP_enter_preEvents (model : String) :
    List.countP isEnterProcessing (preEvents model) = 1 := rfl

theorem mainIter_failure (jobId model errMsg : String) (j : Job) (fn : String)
    (hf : j.filename = some fn) (t maxR : ℕ) :
    mainIterEvents jobId model (some j) true (EngineResult.failure errMsg)
      false t maxR false false
    = (preEvents model
        ++ [Ev.removeOutputDir, Ev.deleteInput,
            Ev.write ⟨Status.failed, some 0,
              some (processErrorMsg jobId errMsg), none⟩])
      ++ retry_failed_job j.retry_count maxR := by
  simp [mainIterEvents, hf, processAudioEvents, threadContinuation, wr]

/-- C3 (amended): for every configured maximum `maxR`, running the
worker loop on a fresh job against an engine that always fails with a
retryable error dead-letters the job after exactly `maxR + 1` failed
attempts (the initial attempt plus `maxR` retries), with
`retry_count = maxR` at the end, the id no longer queued, and the
status left `failed`; and only the *first* attempt ever enters
`processing`, because the failure cleanup deletes the input artifact,
so every retry fails immediately with a missing-input error before
writing `processing` — retries also never set the status back to
`queued`. -/
theorem c3_run_dead_letters_after_n_plus_one_failures
    (maxR t : ℕ) (jobId model errMsg fn : String) :
    runOutcomeSpec maxR (maxR + 1) 1
      (runAlwaysFail jobId model errMsg t maxR (maxR + 2) (initialState fn)) := by
  rw [show (maxR + 2 : ℕ) = (maxR + 1) + 1 from rfl,
    runAlwaysFail_step jobId model errMsg t maxR (maxR + 1) (initialState fn) rfl]
  rw [show (initialState fn).job = createdJob fn from rfl,
    show (initialState fn).inputPresent = true from rfl,
    mainIter_failure jobId model errMsg (createdJob fn) fn rfl t maxR,
    show (createdJob fn).retry_count = 0 from rfl]
  cases maxR with
  | zero =>
      rw [retry_failed_job, if_neg (lt_irrefl 0)]
      rw [runAlwaysFail_stop jobId model errMsg t 0 (0 + 1) _
        (by simp [applyEvs, applyEv, preEvents, wr, update_job_status, initialState])]
      simp [runOutcomeSpec, attemptFailureCount, enterProcessingCount,
        List.countP_append, List.countP_cons, List.countP_nil, preEvents, wr,
        applyEvs, applyEv, update_job_status, initialState, createdJob,
        isAttemptFailure_processError, isAttemptFailure_maxRetries,
        isAttemptFailure_procW, isAttemptFailure_deadLetter,
        isAttemptFailure_mkOutputDir, isAttemptFailure_deleteInput,
        isAttemptFailure_removeOutputDir,
        isEnterProcessing_failedW, isEnterProcessing_deadLetter,
        isEnterProcessing_mkOutputDir, isEnterProcessing_deleteInput,
        isEnterProcessing_removeOutputDir,
        isEnterProcessing_p10, isEnterProcessing_p20, isEnterProcessing_p30,
        isEnterProcessing_p40]
  | succ m =>
      rw [retry_failed_job, if_pos (Nat.succ_pos m)]
      rw [show (m + 1 + 1 : ℕ) = m + 2 from rfl]
      have hrec := runAlwaysFail_missing_spec jobId model errMsg t (m + 1) fn m 1
        (applyEvs
          { job := createdJob fn, inputPresent := true, queuedLen := 0,
            deadLettered := (initialState fn).deadLettered,
            outputDirExists := (initialState fn).outputDirExists }
          (preEvents model ++
            [Ev.removeOutputDir, Ev.deleteInput,
              Ev.write ⟨Status.failed, some 0,
                some (processErrorMsg jobId errMsg), none⟩] ++
            [Ev.incRetry, Ev.enqueue]))
        (by omega)
        (by simp [applyEvs, applyEv, preEvents, wr, update_job_status])
        (by simp [applyEvs, applyEv, preEvents, wr, update_job_status])
        (by simp [applyEvs, applyEv, preEvents, wr, update_job_status, createdJob])
        (by simp [applyEvs, applyEv, preEvents, wr, update_job_status, createdJob])
      obtain ⟨ha, hb, hc, hd, he, hf2⟩ := hrec
      refine ⟨?_, ?_, ?_, ?_, ?_, ?_⟩
      · rw [attemptFailureCount] at ha ⊢
        rw [List.countP_append, List.countP_append, List.countP_append, ha]
        simp [List.countP_cons, List.countP_nil,
          countP_attempt_preEvents, isAttemptFailure_processError,
          isAttemptFailure_removeOutputDir, isAttemptFailure_deleteInput,
          isAttemptFailure_incRetry, isAttemptFailure_enqueue]
        omega
      · rw [enterProcessingCount] at hb ⊢
        rw [List.countP_append, List.countP_append, List.countP_append, hb]
        simp [List.countP_cons, List.countP_nil,
          countP_enter_preEvents, isEnterProcessing_failedW,
          isEnterProcessing_removeOutputDir, isEnterProcessing_deleteInput,
          isEnterProcessing_incRetry, isEnterProcessing_enqueue]
      · exact hc
      · exact hd
      · exact he
      · exact hf2

/-- C3, as stated, is false at `N = 2`: with `max_retries = 2` and an
engine that always fails, the run enters `processing` once (not twice)
and makes three (not two) failed attempts before the id is
dead-lettered; the half of the claim that does hold is
`retry_count = 2` at dead-lettering. -/
theorem c3_two_retries_counterexample :
    enterProcessingCount
        (runAlwaysFail "j1" "htdemucs" "engine error" 600 2 4
          (initialState "song.mp3")).1 = 1
    ∧ attemptFailureCount
        (runAlwaysFail "j1" "htdemucs" "engine error" 600 2 4
          (initialState "song.mp3")).1 = 3
    ∧ (runAlwaysFail "j1" "htdemucs" "engine error" 600 2 4
          (initialState "song.mp3")).2.deadLettered = true
    ∧ (runAlwaysFail "j1" "htdemucs" "engine error" 600 2 4
          (initialState "song.mp3")).2.job.retry_count = 2 := by
  refine ⟨by decide, by decide, by decide, by decide⟩

/-- C2: refuted on the code.  In the reachable timeout interleaving
(`timeoutScenarioEvents`: deadline expires during separation, the
engine call later succeeds), the status write sequence sets `failed`
(the timeout write) and *later* sets `completed` — the abandoned daemon
thread is never cancelled and finishes with an unconditional
`completed` write — so a job whose status was set to `failed` is
subsequently set to `completed`, and the final stored status of the
timed-out job is `completed`. -/
theorem c2_timeout_failed_then_completed :
    failedBeforeCompleted
        (statusHistory
          (timeoutScenarioEvents "j1" "htdemucs" 600
            (EngineResult.success ["drums", "bass", "other", "vocals"])
            false)) = true
    ∧ (applyEvs (initialState "song.mp3")
          (timeoutScenarioEvents "j1" "htdemucs" 600
            (EngineResult.success ["drums", "bass", "other", "vocals"])
            false)).job.status = Status.completed := by
  refine ⟨by decide, by decide⟩

/-- C4, as stated, is false: a job whose input artifact is absent is
*retried* by the code — after the missing-input failure its
`retry_count` has become 1 (not 0) and the id is back on the pending
queue.  The `FileNotFoundError` is caught by the main loop's generic
handler, which calls `retry_failed_job`. -/
theorem c4_missing_input_retried_counterexample :
    (applyEvs ⟨createdJob "song.mp3", false, 0, false, false⟩
        (mainIterEvents "j3" "htdemucs" (some (createdJob "song.mp3")) false
          (EngineResult.failure "x") false 600 3 false false)).job.retry_count = 1
    ∧ (applyEvs ⟨createdJob "song.mp3", false, 0, false, false⟩
        (mainIterEvents "j3" "htdemucs" (some (createdJob "song.mp3")) false
          (EngineResult.failure "x") false 600 3 false false)).queuedLen = 1 := by
  refine ⟨by decide, by decide⟩

/-- C4 (amended): a job with no input artifact fails immediately with
the missing-input message, but — contrary to the claim — the failure is
handled by the ordinary retry policy: while `retry_count` is below the
maximum, the count is incremented and the id is re-enqueued onto the
pending queue. -/
theorem c4_missing_input_fails_and_is_retried (jobId model fn : String)
    (engine : EngineResult) (t maxR : ℕ) (s : SysState)
    (hf : s.job.filename = some fn) (hrc : s.job.retry_count < maxR) :
    mainIterEvents jobId model (some s.job) false engine false t maxR
        false false
      = [Ev.write ⟨Status.failed, some 0,
          some (processErrorMsg jobId (inputNotFoundMsg jobId)), none⟩,
         Ev.incRetry, Ev.enqueue]
    ∧ (applyEvs s (mainIterEvents jobId model (some s.job) false engine
          false t maxR false false)).job.status = Status.failed
    ∧ (applyEvs s (mainIterEvents jobId model (some s.job) false engine
          false t maxR false false)).job.message
        = processErrorMsg jobId (inputNotFoundMsg jobId)
    ∧ (applyEvs s (mainIterEvents jobId model (some s.job) false engine
          false t maxR false false)).job.retry_count
        = s.job.retry_count + 1
    ∧ (applyEvs s (mainIterEvents jobId model (some s.job) false engine
          false t maxR false false)).queuedLen = s.queuedLen + 1 := by
  have he : mainIterEvents jobId model (some s.job) false engine false t maxR
      false false
      = [Ev.write ⟨Status.failed, some 0,
          some (processErrorMsg jobId (inputNotFoundMsg jobId)), none⟩,
         Ev.incRetry, Ev.enqueue] := by
    simp [mainIterEvents, hf, processAudioEvents, retry_failed_job, hrc, wr]
  rw [he]
  refine ⟨rfl, ?_, ?_, ?_, ?_⟩ <;>
    simp [applyEvs, applyEv, update_job_status]

/-- Witness for C4 (amended) at a concrete fresh job. -/
theorem c4_missing_input_fails_and_is_retried_witness :
    (createdJob "song.mp3").filename = some "song.mp3"
    ∧ (createdJob "song.mp3").retry_count < 3
    ∧ (applyEvs ⟨createdJob "song.mp3", false, 0, false, false⟩
        (mainIterEvents "j3" "htdemucs" (some (createdJob "song.mp3")) false
          (EngineResult.failure "x") false 600 3 false false)).job.retry_count
      = (createdJob "song.mp3").retry_count + 1 :=
  ⟨rfl, by decide,
   (c4_missing_input_fails_and_is_retried "j3" "htdemucs" "song.mp3"
      (EngineResult.failure "x") 600 3
      ⟨createdJob "song.mp3", false, 0, false, false⟩ rfl
      (by decide)).2.2.2.1⟩

/-- C6, as stated, is false in the missing-record half: when the
dequeued id has no record at all, the worker loop logs and `continue`s
without writing any status at all — it does not mark the job
`failed`. -/
theorem c6_missing_record_not_marked_failed :
    mainIterEvents "j9" "htdemucs" none true (EngineResult.failure "x")
      false 600 3 false false = [] := by
  decide

/-- C6 (amended): a dequeued id with no record is skipped with no
status write, no retry and no re-enqueue; a record that exists but has
no filename gets exactly one `failed` write (the invalid-data message)
and, likewise, no retry and no re-enqueue. -/
theorem c6_corrupt_job_data_never_retried (jobId model : String)
    (ip : Bool) (engine : EngineResult) (timesOut : Bool) (t maxR : ℕ)
    (sa sbs : Bool) (j : Job) (hf : j.filename = none) :
    mainIterEvents jobId model none ip engine timesOut t maxR sa sbs = []
    ∧ mainIterEvents jobId model (some j) ip engine timesOut t maxR sa sbs
      = [Ev.write ⟨Status.failed, some 0, some invalidDataMsg, none⟩] :=
  ⟨rfl, by simp [mainIterEvents, hf, wr]⟩

/-- Witness for C6 (amended) at a concrete filename-less record. -/
theorem c6_corrupt_job_data_never_retried_witness :
    ({ createdJob "x" with filename := none } : Job).filename = none
    ∧ mainIterEvents "j9" "htdemucs"
        (some { createdJob "x" with filename := none }) true
        (EngineResult.failure "e") false 600 3 false false
      = [Ev.write ⟨Status.failed, some 0, some invalidDataMsg, none⟩] :=
  ⟨rfl,
   (c6_corrupt_job_data_never_retried "j9" "htdemucs" true
      (EngineResult.failure "e") false 600 3 false false
      { createdJob "x" with filename := none } rfl).2⟩

/-- C8, as stated, is false for the shutdown cause: `handle_shutdown`
passes no progress to `update_job_status`, so a job failed by the
shutdown interrupt keeps its previous progress (here 40) instead of
having it reset to 0. -/
theorem c8_shutdown_failure_keeps_progress :
    (update_job_status
        { status := Status.processing, filename := some "f", progress := 40,
          message := separatingMsg, stems := none, retry_count := 0 }
        handle_shutdown_write).progress = 40
    ∧ (update_job_status
        { status := Status.processing, filename := some "f", progress := 40,
          message := separatingMsg, stems := none, retry_count := 0 }
        handle_shutdown_write).status = Status.failed
    ∧ ¬ (update_job_status
        { status := Status.processing, filename := some "f", progress := 40,
          message := separatingMsg, stems := none, retry_count := 0 }
        handle_shutdown_write).progress = 0 := by
  refine ⟨by decide, by decide, by decide⟩

/-- C8 (amended): every transition to `failed` records the cause in the
message; the adapter-error and timeout failure writes also reset
progress to 0, but the shutdown-interrupt failure write supplies no
progress and therefore leaves the stored progress unchanged. -/
theorem c8_failure_writes_record_cause (jobId model errMsg : String)
    (t : ℕ) (sbs : Bool) (j : Job) :
    (update_job_status j handle_shutdown_write).status = Status.failed
    ∧ (update_job_status j handle_shutdown_write).message = shutdownMsg
    ∧ (update_job_status j handle_shutdown_write).progress = j.progress
    ∧ Ev.write ⟨Status.failed, some 0, some (processErrorMsg jobId errMsg),
          none⟩
        ∈ (processAudioEvents jobId model true (EngineResult.failure errMsg)
            false sbs).1
    ∧ Ev.write ⟨Status.failed, some 0, some (timeoutMsg t), none⟩
        ∈ timeoutScenarioEvents jobId model t (EngineResult.failure errMsg)
            sbs := by
  refine ⟨rfl, rfl, rfl, ?_, ?_⟩
  · simp [processAudioEvents, threadContinuation, preEvents, wr]
  · simp [timeoutScenarioEvents, threadContinuation, preEvents, wr]

/-- C9: refuted on the code in its in-flight half.  When the
termination signal arrives while the processing thread is in the save
phase (past the last shutdown check), `handle_shutdown` writes the
interruption `failed`, but the thread is not cancelled, finishes the
saves, and ends with the unconditional `completed` write — so the
in-flight job ends in `completed`, not `failed`. -/
theorem c9_interrupted_in_flight_job_ends_completed :
    Ev.write handle_shutdown_write
      ∈ shutdownDuringSaveEvents "j4" "htdemucs"
          ["drums", "bass", "other", "vocals"]
    ∧ (applyEvs (initialState "song.mp3")
        (shutdownDuringSaveEvents "j4" "htdemucs"
          ["drums", "bass", "other", "vocals"])).job.status
      = Status.completed := by
  refine ⟨by decide, by decide⟩

/-- Every element of the save loop is a stem save or a status write. -/
theorem saveEvents_shape (n : ℕ) :
    ∀ (l : List String) (i : ℕ) (e : Ev), e ∈ saveEvents n l i →
      (∃ nm, e = Ev.saveStem nm) ∨ ∃ u, e = Ev.write u := by
  intro l
  induction l with
  | nil => intro i e he; simp [saveEvents] at he
  | cons a rest ih =>
      intro i e he
      simp only [saveEvents, List.mem_cons] at he
      rcases he with h | h | h
      · exact Or.inl ⟨a, h⟩
      · exact Or.inr ⟨_, h⟩
      · exact ih (i + 1) e h

/-- The save loop never increments the retry count. -/
theorem incRetry_not_mem_saveEvents (n : ℕ) (l : List String) (i : ℕ) :
    Ev.incRetry ∉ saveEvents n l i := by
  intro h
  rcases saveEvents_shape n l i _ h with ⟨nm, h2⟩ | ⟨u, h2⟩ <;> simp at h2

/-- The save loop never enqueues. -/
theorem enqueue_not_mem_saveEvents (n : ℕ) (l : List String) (i : ℕ) :
    Ev.enqueue ∉ saveEvents n l i := by
  intro h
  rcases saveEvents_shape n l i _ h with ⟨nm, h2⟩ | ⟨u, h2⟩ <;> simp at h2

/-- An event list without `incRetry` and `enqueue` leaves the retry
count and the queue length unchanged. -/
theorem retry_and_queue_preserved (evs : List Ev) :
    Ev.incRetry ∉ evs → Ev.enqueue ∉ evs → ∀ s : SysState,
      (applyEvs s evs).job.retry_count = s.job.retry_count
      ∧ (applyEvs s evs).queuedLen = s.queuedLen := by
  induction evs with
  | nil => intro _ _ s; exact ⟨rfl, rfl⟩
  | cons e rest ih =>
      intro h1 h2 s
      simp only [List.mem_cons, not_or] at h1 h2
      have hrec := ih h1.2 h2.2 (applyEv s e)
      refine ⟨hrec.1.trans ?_, hrec.2.trans ?_⟩ <;>
        cases e <;> simp [applyEv, update_job_status] at *

/-- C5: a timed-out attempt writes `failed` with the timeout message,
and neither the timeout path nor anything the abandoned thread later
does pushes the id back on the queue or touches the retry count — the
main loop's `TimeoutError` handler deliberately skips
`retry_failed_job`. -/
theorem c5_timeout_failed_without_retry (jobId model fn : String)
    (engine : EngineResult) (ip : Bool) (t maxR : ℕ) (sbs : Bool)
    (s : SysState) (hf : s.job.filename = some fn) :
    Ev.write ⟨Status.failed, some 0, some (timeoutMsg t), none⟩
      ∈ mainIterEvents jobId model (some s.job) ip engine true t maxR
          false sbs
    ∧ Ev.incRetry ∉ mainIterEvents jobId model (some s.job) ip engine true
        t maxR false sbs
    ∧ Ev.enqueue ∉ mainIterEvents jobId model (some s.job) ip engine true
        t maxR false sbs
    ∧ (applyEvs s (mainIterEvents jobId model (some s.job) ip engine true
        t maxR false sbs)).job.retry_count = s.job.retry_count
    ∧ (applyEvs s (mainIterEvents jobId model (some s.job) ip engine true
        t maxR false sbs)).queuedLen = s.queuedLen := by
  have he : mainIterEvents jobId model (some s.job) ip engine true t maxR
      false sbs = timeoutScenarioEvents jobId model t engine sbs := by
    simp [mainIterEvents, hf]
  have h1 : Ev.incRetry ∉ timeoutScenarioEvents jobId model t engine sbs := by
    cases engine with
    | failure m =>
        simp [timeoutScenarioEvents, threadContinuation, preEvents, wr]
    | success l =>
        cases sbs <;>
          simp [timeoutScenarioEvents, threadContinuation, preEvents, wr,
            incRetry_not_mem_saveEvents]
  have h2 : Ev.enqueue ∉ timeoutScenarioEvents jobId model t engine sbs := by
    cases engine with
    | failure m =>
        simp [timeoutScenarioEvents, threadContinuation, preEvents, wr]
    | success l =>
        cases sbs <;>
          simp [timeoutScenarioEvents, threadContinuation, preEvents, wr,
            enqueue_not_mem_saveEvents]
  rw [he]
  have hp := retry_and_queue_preserved _ h1 h2 s
  refine ⟨?_, h1, h2, hp.1, hp.2⟩
  simp [timeoutScenarioEvents, preEvents, wr]

/-- Witness for C5 at a concrete fresh job and the default timeout. -/
theorem c5_timeout_failed_without_retry_witness :
    (createdJob "song.mp3").filename = some "song.mp3"
    ∧ Ev.write ⟨Status.failed, some 0, some (timeoutMsg 600), none⟩
        ∈ mainIterEvents "j2" "htdemucs"
            (some (⟨createdJob "song.mp3", true, 0, false, false⟩
              : SysState).job) true
            (EngineResult.success ["vocals"]) true 600 3 false false :=
  ⟨rfl,
   (c5_timeout_failed_without_retry "j2" "htdemucs" "song.mp3"
      (EngineResult.success ["vocals"]) true 600 3 false
      ⟨createdJob "song.mp3", true, 0, false, false⟩ rfl).1⟩

/-- Events ending in an input unlink followed by a single status write
leave no input artifact behind. -/
theorem inputGone_after_delete_then_write (evs : List Ev) (u : JobUpdate)
    (s : SysState) :
    (applyEvs s (evs ++ [Ev.deleteInput, Ev.write u])).inputPresent
      = false := by
  simp [applyEvs, List.foldl_append, applyEv]

/-- C10: every attempt run to its own end (no shutdown) leaves no input
artifact, whatever the engine does — on success the unlink happens
after all stems are saved and just before the `completed` write, and on
an engine error past output-directory creation the cleanup handler
removes the output directory and the input file; an attempt started
with the input absent (as every retried attempt is) fails immediately
on the missing-input lookup. -/
theorem c10_input_deleted_in_both_outcomes (jobId model errMsg : String)
    (stemNames : List String) (engine : EngineResult) (s : SysState) :
    (applyEvs s (processAudioEvents jobId model s.inputPresent engine
        false false).1).inputPresent = false
    ∧ Ev.removeOutputDir
        ∈ (processAudioEvents jobId model true (EngineResult.failure errMsg)
            false false).1
    ∧ Ev.deleteInput
        ∈ (processAudioEvents jobId model true (EngineResult.failure errMsg)
            false false).1
    ∧ processAudioEvents jobId model true (EngineResult.success stemNames)
        false false
      = (preEvents model
          ++ wr Status.processing (some 70) (some savingMsg) none
            :: (saveEvents stemNames.length stemNames 0
                ++ [Ev.deleteInput,
                    wr Status.completed (some 100) (some completedMsg)
                      (some stemNames)]), none)
    ∧ processAudioEvents jobId model false engine false false
      = ([Ev.write ⟨Status.failed, some 0,
            some (processErrorMsg jobId (inputNotFoundMsg jobId)), none⟩],
         some (inputNotFoundMsg jobId)) := by
  refine ⟨?_, ?_, ?_, ?_, ?_⟩
  · cases hip : s.inputPresent with
    | false =>
        simp [processAudioEvents, applyEvs, applyEv, wr, hip]
    | true =>
        cases engine with
        | failure m =>
            have hsh : (processAudioEvents jobId model true
                (EngineResult.failure m) false false).1
                = (preEvents model ++ [Ev.removeOutputDir])
                  ++ [Ev.deleteInput,
                      Ev.write ⟨Status.failed, some 0,
                        some (processErrorMsg jobId m), none⟩] := by
              simp [processAudioEvents, threadContinuation, wr]
            rw [hsh, inputGone_after_delete_then_write]
        | success l =>
            have hsh : (processAudioEvents jobId model true
                (EngineResult.success l) false false).1
                = (preEvents model
                    ++ wr Status.processing (some 70) (some savingMsg) none
                      :: saveEvents l.length l 0)
                  ++ [Ev.deleteInput,
                      Ev.write ⟨Status.completed, some 100,
                        some completedMsg, some l⟩] := by
              simp [processAudioEvents, threadContinuation, wr]
            rw [hsh, inputGone_after_delete_then_write]
  · simp [processAudioEvents, threadContinuation, preEvents, wr]
  · simp [processAudioEvents, threadContinuation, preEvents, wr]
  · simp [processAudioEvents, threadContinuation, wr]
  · simp [processAudioEvents, wr]


/-- Benign events keep a job without stems and not completed that way. -/
theorem benign_keeps_incomplete (evs : List Ev)
    (hb : ∀ e ∈ evs, benignEv e = true) :
    ∀ s : SysState, stemsNonempty s.job = false →
      s.job.status ≠ Status.completed →
      stemsNonempty (applyEvs s evs).job = false
      ∧ (applyEvs s evs).job.status ≠ Status.completed := by
  induction evs with
  | nil => intro s h1 h2; exact ⟨h1, h2⟩
  | cons e rest ih =>
      intro s h1 h2
      have hbe : benignEv e = true := hb e (List.mem_cons_self e rest)
      have hbrest : ∀ x ∈ rest, benignEv x = true := fun x hx =>
        hb x (List.mem_cons_of_mem e hx)
      have hstep : stemsNonempty (applyEv s e).job = false
          ∧ (applyEv s e).job.status ≠ Status.completed := by
        cases e with
        | write u =>
            simp only [benignEv, Bool.and_eq_true, Bool.not_eq_eq_eq_not,
              Bool.not_true, beq_eq_false_iff_ne, ne_eq, beq_iff_eq] at hbe
            obtain ⟨hst, hstm⟩ := hbe
            constructor
            · simp [applyEv, update_job_status, hstm, stemsNonempty]
              exact h1
            · simp [applyEv, update_job_status]
              exact hst
        | incRetry => exact ⟨h1, h2⟩
        | enqueue => exact ⟨h1, h2⟩
        | deadLetter => exact ⟨h1, h2⟩
        | mkOutputDir => exact ⟨h1, h2⟩
        | saveStem nm => exact ⟨h1, h2⟩
        | deleteInput => exact ⟨h1, h2⟩
        | removeOutputDir => exact ⟨h1, h2⟩
      exact ih hbrest (applyEv s e) hstep.1 hstep.2

/-- For an event list of the shape `benign prelude ++ optional final
completion write`, every prefix of it (every intermediate store state)
satisfies the invariant `stems non-empty iff status completed`. -/
theorem inv_take_of_shape (evs B C : List Ev) (he : evs = B ++ C)
    (hB : ∀ e ∈ B, benignEv e = true)
    (hC : C = [] ∨ ∃ p m l, l ≠ ([] : List String)
      ∧ C = [Ev.write ⟨Status.completed, p, m, some l⟩])
    (s : SysState) (h1 : stemsNonempty s.job = false)
    (h2 : s.job.status ≠ Status.completed) (n : ℕ) :
    (stemsNonempty (applyEvs s (evs.take n)).job = true
      ↔ (applyEvs s (evs.take n)).job.status = Status.completed) := by
  subst he
  rw [List.take_append_eq_append_take]
  rw [applyEvs, List.foldl_append]
  have hBtake : ∀ e ∈ B.take n, benignEv e = true := fun e hee =>
    hB e (List.mem_of_mem_take hee)
  have hmid := benign_keeps_incomplete (B.take n) hBtake s h1 h2
  rcases hC with hC | ⟨p, m, l, hl, hC⟩
  · subst hC
    simp only [List.take_nil, List.foldl_nil]
    constructor
    · intro hcon
      rw [applyEvs] at hmid
      rw [hmid.1] at hcon
      exact absurd hcon (by simp)
    · intro hcon
      rw [applyEvs] at hmid
      exact absurd hcon hmid.2
  · subst hC
    cases hnb : n - B.length with
    | zero =>
        simp only [List.take_zero, List.foldl_nil]
        constructor
        · intro hcon
          rw [applyEvs] at hmid
          rw [hmid.1] at hcon
          exact absurd hcon (by simp)
        · intro hcon
          rw [applyEvs] at hmid
          exact absurd hcon hmid.2
    | succ k =>
        have htk : List.take (k + 1)
            [Ev.write ⟨Status.completed, p, m, some l⟩]
            = [Ev.write ⟨Status.completed, p, m, some l⟩] := by
          simp
        rw [htk]
        simp only [List.foldl_cons, List.foldl_nil]
        constructor
        · intro _
          simp [applyEv, update_job_status]
        · intro _
          cases l with
          | nil => exact absurd rfl hl
          | cons a rest =>
              simp [applyEv, update_job_status, stemsNonempty]

/-- The empty event list is benign. -/
theorem benign_nil : ∀ e ∈ ([] : List Ev), benignEv e = true := by simp

/-- Concatenation preserves benignity. -/
theorem benign_append (A B : List Ev)
    (hA : ∀ e ∈ A, benignEv e = true) (hB : ∀ e ∈ B, benignEv e = true) :
    ∀ e ∈ A ++ B, benignEv e = true := by
  intro e he
  rcases List.mem_append.mp he with h | h
  exacts [hA e h, hB e h]

/-- Prepending a benign event preserves benignity. -/
theorem benign_cons (a : Ev) (A : List Ev) (ha : benignEv a = true)
    (hA : ∀ e ∈ A, benignEv e = true) :
    ∀ e ∈ a :: A, benignEv e = true := by
  intro e he
  rcases List.mem_cons.mp he with h | h
  · exact h ▸ ha
  · exact hA e h

/-- All progress writes up to the separation step are benign. -/
theorem benign_preEvents (model : String) :
    ∀ e ∈ preEvents model, benignEv e = true := by
  intro e he
  simp only [preEvents, wr, List.mem_cons, List.not_mem_nil, or_false] at he
  rcases he with h | h | h | h | h <;> subst h <;> rfl

/-- All save-loop events are benign. -/
theorem benign_saveEvents (n : ℕ) :
    ∀ (l : List String) (i : ℕ), ∀ e ∈ saveEvents n l i,
      benignEv e = true := by
  intro l
  induction l with
  | nil => intro i e he; simp [saveEvents] at he
  | cons a rest ih =>
      intro i e he
      simp only [saveEvents, wr, List.mem_cons] at he
      rcases he with h | h | h
      · subst h; rfl
      · subst h; rfl
      · exact ih (i + 1) e h

/-- All retry-policy events are benign. -/
theorem benign_retry (rc maxR : ℕ) :
    ∀ e ∈ retry_failed_job rc maxR, benignEv e = true := by
  intro e he
  rw [retry_failed_job] at he
  by_cases h : rc < maxR
  · rw [if_pos h] at he
    simp only [List.mem_cons, List.not_mem_nil, or_false] at he
    rcases he with h2 | h2 <;> subst h2 <;> rfl
  · rw [if_neg h] at he
    simp only [wr, List.mem_cons, List.not_mem_nil, or_false] at he
    rcases he with h2 | h2 <;> subst h2 <;> rfl

/-- C7 (amended): for every main-loop handling of a dequeued id — any
record, input presence, engine outcome (with the engine's non-empty
stem list), timeout or not, shutdown checkpoints or not — and every
prefix of its event sequence, the stored job satisfies `stems` is
non-empty iff `status = completed`, provided the starting record has no
stems and is not completed.  The only way the code breaks the iff is
the shutdown write landing *after* the completion write (see the
counterexample), which is outside these traces. -/
theorem c7_stems_iff_completed (jobId model : String) (record : Option Job)
    (ip : Bool) (engine : EngineResult) (timesOut : Bool) (t maxR : ℕ)
    (sa sbs : Bool) (s : SysState)
    (hne : engineStemsNonempty engine)
    (h1 : stemsNonempty s.job = false)
    (h2 : s.job.status ≠ Status.completed) (n : ℕ) :
    stemsNonempty (applyEvs s ((mainIterEvents jobId model record ip engine
        timesOut t maxR sa sbs).take n)).job = true
    ↔ (applyEvs s ((mainIterEvents jobId model record ip engine timesOut
        t maxR sa sbs).take n)).job.status = Status.completed := by
  cases record with
  | none =>
      exact inv_take_of_shape _ [] [] rfl benign_nil (Or.inl rfl) s h1 h2 n
  | some j =>
      cases hj : j.filename with
      | none =>
          refine inv_take_of_shape _
            [Ev.write ⟨Status.failed, some 0, some invalidDataMsg, none⟩] []
            (by simp [mainIterEvents, hj, wr])
            (benign_cons _ _ rfl benign_nil) (Or.inl rfl) s h1 h2 n
      | some f =>
          cases timesOut with
          | true =>
              cases engine with
              | failure m =>
                  refine inv_take_of_shape _
                    ((preEvents model
                        ++ [Ev.write ⟨Status.failed, some 0,
                              some (timeoutMsg t), none⟩,
                            Ev.write ⟨Status.failed, some 0,
                              some (timeoutMsg t), none⟩])
                      ++ [Ev.removeOutputDir, Ev.deleteInput,
                          Ev.write ⟨Status.failed, some 0,
                            some (processErrorMsg jobId m), none⟩]) []
                    (by simp [mainIterEvents, hj, timeoutScenarioEvents,
                      threadContinuation, wr])
                    (benign_append _ _
                      (benign_append _ _ (benign_preEvents model)
                        (benign_cons _ _ rfl (benign_cons _ _ rfl benign_nil)))
                      (benign_cons _ _ rfl (benign_cons _ _ rfl
                        (benign_cons _ _ rfl benign_nil))))
                    (Or.inl rfl) s h1 h2 n
              | success l =>
                  cases sbs with
                  | true =>
                      refine inv_take_of_shape _
                        (preEvents model
                          ++ [Ev.write ⟨Status.failed, some 0,
                                some (timeoutMsg t), none⟩,
                              Ev.write ⟨Status.failed, some 0,
                                some (timeoutMsg t), none⟩]) []
                        (by simp [mainIterEvents, hj, timeoutScenarioEvents,
                          threadContinuation, wr])
                        (benign_append _ _ (benign_preEvents model)
                          (benign_cons _ _ rfl
                            (benign_cons _ _ rfl benign_nil)))
                        (Or.inl rfl) s h1 h2 n
                  | false =>
                      refine inv_take_of_shape _
                        ((preEvents model
                            ++ [Ev.write ⟨Status.failed, some 0,
                                  some (timeoutMsg t), none⟩,
                                Ev.write ⟨Status.failed, some 0,
                                  some (timeoutMsg t), none⟩])
                          ++ (Ev.write ⟨Status.processing, some 70,
                                some savingMsg, none⟩
                              :: (saveEvents l.length l 0
                                  ++ [Ev.deleteInput])))
                        [Ev.write ⟨Status.completed, some 100,
                          some completedMsg, some l⟩]
                        (by simp [mainIterEvents, hj, timeoutScenarioEvents,
                          threadContinuation, wr])
                        (benign_append _ _
                          (benign_append _ _ (benign_preEvents model)
                            (benign_cons _ _ rfl
                              (benign_cons _ _ rfl benign_nil)))
                          (benign_cons _ _ rfl
                            (benign_append _ _ (benign_saveEvents _ _ _)
                              (benign_cons _ _ rfl benign_nil))))
                        (Or.inr ⟨some 100, some completedMsg, l, hne, rfl⟩)
                        s h1 h2 n
          | false =>
              cases sa with
              | true =>
                  refine inv_take_of_shape _ [] []
                    (by simp [mainIterEvents, hj, processAudioEvents])
                    benign_nil (Or.inl rfl) s h1 h2 n
              | false =>
                  cases hip : ip with
                  | false =>
                      refine inv_take_of_shape _
                        (Ev.write ⟨Status.failed, some 0,
                            some (processErrorMsg jobId
                              (inputNotFoundMsg jobId)), none⟩
                          :: retry_failed_job j.retry_count maxR) []
                        (by simp [mainIterEvents, hj, processAudioEvents, wr])
                        (benign_cons _ _ rfl (benign_retry _ _))
                        (Or.inl rfl) s h1 h2 n
                  | true =>
                      cases engine with
                      | failure m =>
                          refine inv_take_of_shape _
                            ((preEvents model
                                ++ [Ev.removeOutputDir, Ev.deleteInput,
                                    Ev.write ⟨Status.failed, some 0,
                                      some (processErrorMsg jobId m), none⟩])
                              ++ retry_failed_job j.retry_count maxR) []
                            (by simp [mainIterEvents, hj, processAudioEvents,
                              threadContinuation, wr])
                            (benign_append _ _
                              (benign_append _ _ (benign_preEvents model)
                                (benign_cons _ _ rfl (benign_cons _ _ rfl
                                  (benign_cons _ _ rfl benign_nil))))
                              (benign_retry _ _))
                            (Or.inl rfl) s h1 h2 n
                      | success l =>
                          cases sbs with
                          | true =>
                              refine inv_take_of_shape _
                                (preEvents model) []
                                (by simp [mainIterEvents, hj,
                                  processAudioEvents, threadContinuation])
                                (benign_preEvents model)
                                (Or.inl rfl) s h1 h2 n
                          | false =>
                              refine inv_take_of_shape _
                                (preEvents model
                                  ++ (Ev.write ⟨Status.processing, some 70,
                                        some savingMsg, none⟩
                                      :: (saveEvents l.length l 0
                                          ++ [Ev.deleteInput])))
                                [Ev.write ⟨Status.completed, some 100,
                                  some completedMsg, some l⟩]
                                (by simp [mainIterEvents, hj,
                                  processAudioEvents, threadContinuation, wr])
                                (benign_append _ _ (benign_preEvents model)
                                  (benign_cons _ _ rfl
                                    (benign_append _ _
                                      (benign_saveEvents _ _ _)
                                      (benign_cons _ _ rfl benign_nil))))
                                (Or.inr ⟨some 100, some completedMsg, l,
                                  hne, rfl⟩)
                                s h1 h2 n

/-- C7, as stated, is false: when the termination signal arrives after
the `completed` write but before the main loop clears
`current_job_id`, `handle_shutdown` overwrites the status with
`failed` while the `stems` field (never cleared by any write) stays
populated — a `failed` job with non-empty stems. -/
theorem c7_failed_with_stems_counterexample :
    (applyEvs (initialState "song.mp3")
        (shutdownAfterCompleteEvents "j1" "htdemucs"
          ["vocals", "drums"])).job.status = Status.failed
    ∧ stemsNonempty (applyEvs (initialState "song.mp3")
        (shutdownAfterCompleteEvents "j1" "htdemucs"
          ["vocals", "drums"])).job = true := by
  refine ⟨by decide, by decide⟩

/-- Witness for C7 (amended) at a concrete successful attempt. -/
theorem c7_stems_iff_completed_witness :
    engineStemsNonempty (EngineResult.success ["vocals"])
    ∧ stemsNonempty (initialState "song.mp3").job = false
    ∧ (initialState "song.mp3").job.status ≠ Status.completed
    ∧ (stemsNonempty (applyEvs (initialState "song.mp3")
          ((mainIterEvents "j1" "htdemucs"
            (some (initialState "song.mp3").job) true
            (EngineResult.success ["vocals"]) false 600 3 false
            false).take 20)).job = true
        ↔ (applyEvs (initialState "song.mp3")
            ((mainIterEvents "j1" "htdemucs"
              (some (initialState "song.mp3").job) true
              (EngineResult.success ["vocals"]) false 600 3 false
              false).take 20)).job.status = Status.completed) :=
  ⟨by simp [engineStemsNonempty], rfl, by decide,
   c7_stems_iff_completed "j1" "htdemucs"
     (some (initialState "song.mp3").job) true
     (EngineResult.success ["vocals"]) false 600 3 false false
     (initialState "song.mp3") (by simp [engineStemsNonempty]) rfl
     (by decide) 20⟩

end StemSplitter
